import Mathlib

/-!
Verification development for the farming-assistant backend server
(`server/server.js`): the weather cached proxy, the in-memory crop and
todo collections, and the generative-AI chat relay. Each JS handler is
shallowly embedded as a pure Lean function; JS numbers appearing in the
claims are modelled as rationals (coordinates) or integers (chat coords),
JS `Map` as an association list with Map set/get semantics, and the
nondeterministic parts (current time, upstream responses, generated ids)
as explicit parameters.
-/

/-- JS string truthiness: a string is truthy iff it is non-empty. -/
def strTruthy (s : String) : Bool := s != ""

/-- Left-pad a natural below 1000 to three decimal digits, as `toFixed(3)`
renders the fractional part. -/
def pad3 (m : Nat) : String :=
  if m < 10 then "00" ++ toString m
  else if m < 100 then "0" ++ toString m
  else toString m

/-- `x.toFixed(3)` of ECMAScript on a (rational-valued) number: a leading
minus sign iff `x < 0`, then the decimal rendering of the integer
`n = floor(1000 * |x| + 1/2)` (ties away from zero, per the ECMA `toFixed`
algorithm, which picks the larger candidate integer) split into whole part
`n / 1000` and three fraction digits `n % 1000`. -/
def toFixed3 (x : ℚ) : String :=
  let n : ℕ := (Int.floor (1000 * |x| + 1/2)).toNat
  (if x < 0 then "-" else "") ++ toString (n / 1000) ++ "." ++ pad3 (n % 1000)

/-- The weather cache fingerprint on numeric coordinates, from
server.js line 49:
`` `${Number(lat).toFixed(3)},${Number(lon).toFixed(3)},${units},${lang}` ``. -/
def fingerprintQ (lat lon : ℚ) (units lang : String) : String :=
  toFixed3 lat ++ "," ++ toFixed3 lon ++ "," ++ units ++ "," ++ lang

/-- Digit run of a decimal numeral to a natural number. -/
def digitsToNat (cs : List Char) : ℕ :=
  cs.foldl (fun a c => a * 10 + (c.toNat - 48)) 0

/-- `Number(s)` of JS restricted to the plain decimal numerals the server
receives as `lat`/`lon` query parameters: an optional minus sign, integer
digits, then an optional dot and fraction digits. -/
def parseDecimal (s : String) : ℚ :=
  let cs := s.data
  let (neg, ds) :=
    match cs with
    | '-' :: rest => (true, rest)
    | _ => (false, cs)
  let intPart := ds.takeWhile (fun c => c != '.')
  let fracPart := (ds.dropWhile (fun c => c != '.')).drop 1
  let v : ℚ := (digitsToNat intPart : ℚ) + (digitsToNat fracPart : ℚ) / (10 ^ fracPart.length)
  if neg then -v else v

/-- A cached weather entry: the store time `ts` (ms) and the upstream
payload (an opaque JSON value, modelled as its text). -/
structure CacheEntry where
  ts : ℤ
  data : String
deriving DecidableEq, Repr

/-- `Map.get` of JS on the cache association list: first binding wins
(bindings are unique in a JS Map). -/
def mapGet (m : List (String × CacheEntry)) (k : String) : Option CacheEntry :=
  (m.find? (fun p => p.1 == k)).map (fun p => p.2)

/-- `Map.set` of JS: overwrite the binding in place when the key is
present, otherwise append a new binding. -/
def mapSet (m : List (String × CacheEntry)) (k : String) (v : CacheEntry) :
    List (String × CacheEntry) :=
  if m.any (fun p => p.1 == k) then
    m.map (fun p => if p.1 == k then (k, v) else p)
  else m ++ [(k, v)]

/-- The raw query of a weather request; `none` is an absent parameter. -/
structure WeatherQuery where
  lat : Option String
  lon : Option String
  units : Option String
  lang : Option String
deriving DecidableEq, Repr

/-- The parsed body of the upstream `fetch` response: its HTTP status and
its JSON body (modelled as text). `ok` is `r.ok` of the Fetch API:
status in 200..299. -/
structure UpstreamResp where
  status : ℕ
  data : String
deriving DecidableEq, Repr

def UpstreamResp.ok (r : UpstreamResp) : Bool :=
  200 ≤ r.status && r.status ≤ 299

/-- A response body: either an error object `{error: msg}` or a forwarded
payload. -/
inductive Body where
  | errorBody (msg : String)
  | dataBody (d : String)
deriving DecidableEq, Repr

/-- Everything observable about one run of the weather handler: HTTP
status, body, the Cache-Control header if set, the cache after the run,
and how many upstream fetches were issued. -/
structure WeatherResult where
  status : ℕ
  body : Body
  cacheControl : Option String
  cache : List (String × CacheEntry)
  upstreamCalls : ℕ
deriving DecidableEq, Repr

def cacheHint : String := "public, max-age=30, stale-while-revalidate=120"

/-- The default TTL from server.js: `WEATHER_TTL_MS = 60_000`. -/
def WEATHER_TTL_MS : ℤ := 60000

/-- The composite fingerprint key computed by the handler from the raw
query (server.js line 49), with the `units`/`lang` defaults of line 41. -/
def weatherKey (q : WeatherQuery) : String :=
  fingerprintQ (parseDecimal (q.lat.getD "")) (parseDecimal (q.lon.getD ""))
    (q.units.getD "metric") (q.lang.getD "en")

/-- The `/api/weather` handler, server.js lines 39-71. `hasKey` is whether
`OPENWEATHER_API_KEY` is set; `now` is `Date.now()`; `upstream` is the
response the single possible `fetch` would return. Branches in source
order: missing/empty `lat` or `lon` gives 400; missing key gives 500; a
cached entry younger than the TTL is returned with the cache hint and no
fetch; otherwise one fetch, whose non-ok status and body are forwarded
verbatim, and whose ok payload is stored then returned with the hint. -/
def handleWeather (q : WeatherQuery) (hasKey : Bool) (now : ℤ)
    (cache : List (String × CacheEntry)) (upstream : UpstreamResp) : WeatherResult :=
  if ¬ strTruthy (q.lat.getD "") ∨ ¬ strTruthy (q.lon.getD "") then
    ⟨400, Body.errorBody "lat and lon are required", none, cache, 0⟩
  else if ¬ hasKey then
    ⟨500, Body.errorBody "OPENWEATHER_API_KEY missing in server/.env", none, cache, 0⟩
  else
    let key := weatherKey q
    let cached := mapGet cache key
    match cached with
    | some e =>
      if now - e.ts < WEATHER_TTL_MS then
        ⟨200, Body.dataBody e.data, some cacheHint, cache, 0⟩
      else if upstream.ok then
        ⟨200, Body.dataBody upstream.data, some cacheHint,
          mapSet cache key ⟨now, upstream.data⟩, 1⟩
      else
        ⟨upstream.status, Body.dataBody upstream.data, none, cache, 1⟩
    | none =>
      if upstream.ok then
        ⟨200, Body.dataBody upstream.data, some cacheHint,
          mapSet cache key ⟨now, upstream.data⟩, 1⟩
      else
        ⟨upstream.status, Body.dataBody upstream.data, none, cache, 1⟩

/-- A crop entity: `{id, name, variety}` (server.js line 76). -/
structure Crop where
  id : String
  name : String
  variety : String
deriving DecidableEq, Repr

/-- The body of `POST /api/crops`; `none` is an absent field, for which
line 84 substitutes the defaults `name = "Crop"`, `variety = ""`. -/
structure CropBody where
  name : Option String
  variety : Option String
deriving DecidableEq, Repr

/-- The `POST /api/crops` handler (server.js lines 83-88). `newId` is the
value `makeId()` returned (a fresh random id, nondeterministic in the
source, hence a parameter). Returns the new collection, the HTTP status
and the response entity. -/
def createCrop (crops : List Crop) (newId : String) (body : CropBody) :
    List Crop × ℕ × Crop :=
  let c : Crop := ⟨newId, body.name.getD "Crop", body.variety.getD ""⟩
  (crops ++ [c], 201, c)

/-- A todo entity: `{id, title, cropId, done, when}` (server.js line 77). -/
structure Todo where
  id : String
  title : String
  cropId : Option String
  done : Bool
  when : Option String
deriving DecidableEq, Repr

/-- The body of `PUT /api/todos/:id`: a partial todo; `none` means the
field is absent from the JSON body and hence untouched by the spread
`{...t, ...req.body}`. -/
structure TodoPatch where
  id : Option String
  title : Option String
  cropId : Option (Option String)
  done : Option Bool
  when : Option (Option String)
deriving DecidableEq, Repr

/-- The object spread `{...t, ...p}` of line 111: every field present in
the patch replaces the existing one, absent fields are preserved. -/
def Todo.merge (t : Todo) (p : TodoPatch) : Todo :=
  ⟨p.id.getD t.id, p.title.getD t.title, p.cropId.getD t.cropId,
    p.done.getD t.done, p.when.getD t.when⟩

/-- The `PUT /api/todos/:id` handler (server.js lines 110-114): map the
collection replacing every todo whose id matches, then answer with the
first match in the new collection, or null (`none`). -/
def updateTodo (todos : List Todo) (i : String) (p : TodoPatch) :
    List Todo × Option Todo :=
  let todos2 := todos.map (fun t => if t.id == i then t.merge p else t)
  (todos2, todos2.find? (fun t => t.id == i))

/-- The patch `{done: true}` of the claim. -/
def donePatch : TodoPatch := ⟨none, none, none, some true, none⟩

/-- A chat coordinate pair. The claims exercise integer coordinates, so
the JS numbers are modelled as integers; JS renders them in the template
string exactly as `toString` does, and `0` is the falsy number. -/
structure Coords where
  lat : ℤ
  lon : ℤ
deriving DecidableEq, Repr

/-- The body of `POST /api/gemini-chat` (server.js line 137), with the
defaults of the destructuring: `message = ""`, `crop = ""`,
`coords = null`, `weather = null`. `weather` is modelled as its
`JSON.stringify` text. -/
structure ChatBody where
  message : String
  crop : String
  coords : Option Coords
  weather : Option String
deriving DecidableEq, Repr

/-- The `contextLines` array of server.js lines 139-144: the fixed
preamble, then the crop line if `crop` is truthy, the coords line if both
`coords?.lat` and `coords?.lon` are truthy numbers (nonzero), the weather
line if `weather` is non-null; `.filter(Boolean)` drops the empty
strings the falsy branches left. -/
def contextLines (b : ChatBody) : List String :=
  ([ "You are a helpful farming assistant.",
     if strTruthy b.crop then "Crop: " ++ b.crop else "",
     match b.coords with
     | some c => if c.lat ≠ 0 ∧ c.lon ≠ 0 then
         "Coords: " ++ toString c.lat ++ "," ++ toString c.lon else ""
     | none => "",
     match b.weather with
     | some w => "Weather: " ++ w
     | none => "" ]).filter strTruthy

/-- `.trim()` of JS: strip leading and trailing whitespace. -/
def jsTrim (s : String) : String :=
  ⟨((s.data.dropWhile Char.isWhitespace).reverse.dropWhile Char.isWhitespace).reverse⟩

/-- The prompt of server.js line 146:
`` `${contextLines.join(" | ")}\nUser: ${message}`.trim() ``. -/
def buildPrompt (b : ChatBody) : String :=
  jsTrim (String.intercalate " | " (contextLines b) ++ "\n" ++ "User: " ++ b.message)

/-- The upstream generate-content result as the reply extraction of
server.js lines 155-158 observes it: `text` is `some s` iff
`result.text` is a string `s`; `responseText` is `some s` iff
`result.response.text` is a callable returning `s`. -/
structure GenResult where
  text : Option String
  responseText : Option String
deriving DecidableEq, Repr

/-- The reply extraction of server.js lines 155-158:
`(typeof result?.text === "string" && result.text) ||
 (typeof result?.response?.text === "function" && result.response.text()) ||
 "No reply."`. A string-valued `text` field is used when non-empty (the
`||` chain skips falsy, i.e. empty, strings), else a callable
`response.text` result when non-empty, else the literal fallback. -/
def extractReply (r : GenResult) : String :=
  match r.text with
  | some s =>
    if s = "" then
      match r.responseText with
      | some s2 => if s2 = "" then "No reply." else s2
      | none => "No reply."
    else s
  | none =>
    match r.responseText with
    | some s2 => if s2 = "" then "No reply." else s2
    | none => "No reply."

/-- Modelled from the spec (§4.4, design note on defensive parsing), for
comparison with `extractReply`: the ordered list of accessor shapes is
tried in sequence and the first that yields non-empty text wins. -/
def firstNonEmptyText (shapes : List (Option String)) : Option String :=
  shapes.findSome? (fun o =>
    match o with
    | some s => if s = "" then none else some s
    | none => none)

/-- Any rational strictly within `1/2000` of the gridpoint `k/1000` has
`floor (1000 * |x| + 1/2) = |k|`: the half-up rounding of `toFixed(3)`
lands on the bucket index. -/
theorem round3_floor_eq (x : ℚ) (k : ℤ) (hx : |x - k / 1000| < 1 / 2000) :
    Int.floor (1000 * |x| + 1 / 2) = |k| := by
  rw [abs_sub_lt_iff] at hx
  obtain ⟨h1, h2⟩ := hx
  rcases le_or_lt 0 x with hx0 | hx0
  · have hk : 0 ≤ k := by
      by_contra hneg
      push_neg at hneg
      have hk1 : k ≤ -1 := by omega
      have hq : (k : ℚ) ≤ -1 := by exact_mod_cast hk1
      linarith
    rw [abs_of_nonneg hx0, abs_of_nonneg hk, Int.floor_eq_iff]
    constructor
    · linarith
    · linarith
  · have hk : k ≤ 0 := by
      by_contra hpos
      push_neg at hpos
      have hk1 : 1 ≤ k := by omega
      have hq : (1 : ℚ) ≤ (k : ℚ) := by exact_mod_cast hk1
      linarith
    rw [abs_of_neg hx0, abs_of_nonpos hk, Int.floor_eq_iff]
    constructor
    · push_cast
      linarith
    · push_cast
      linarith

/-- Two rationals strictly within `1/2000` of the same gridpoint and on
the same side of zero render identically under `toFixed(3)`. -/
theorem toFixed3_eq_of_bucket (x y : ℚ) (k : ℤ)
    (hx : |x - k / 1000| < 1 / 2000) (hy : |y - k / 1000| < 1 / 2000)
    (hsign : x < 0 ↔ y < 0) : toFixed3 x = toFixed3 y := by
  simp only [toFixed3]
  rw [round3_floor_eq x k hx, round3_floor_eq y k hy]
  have hpre : (if x < 0 then "-" else "") = (if y < 0 then "-" else "") := by
    by_cases h : x < 0
    · rw [if_pos h, if_pos (hsign.mp h)]
    · rw [if_neg h, if_neg fun h2 => h (hsign.mpr h2)]
  rw [hpre]

/-- C1 (amended): two weather requests whose latitudes both lie strictly
within 0.0005 degrees of a common 3-decimal gridpoint and on the same
side of zero, whose longitudes do likewise, and whose unit system and
language are identical, compute the same cache fingerprint. -/
theorem fingerprint_same_bucket_collides (lat1 lon1 lat2 lon2 : ℚ)
    (units lang : String) (ka ko : ℤ)
    (hla1 : |lat1 - ka / 1000| < 1 / 2000) (hla2 : |lat2 - ka / 1000| < 1 / 2000)
    (hlo1 : |lon1 - ko / 1000| < 1 / 2000) (hlo2 : |lon2 - ko / 1000| < 1 / 2000)
    (hsa : lat1 < 0 ↔ lat2 < 0) (hso : lon1 < 0 ↔ lon2 < 0) :
    fingerprintQ lat1 lon1 units lang = fingerprintQ lat2 lon2 units lang := by
  unfold fingerprintQ
  rw [toFixed3_eq_of_bucket lat1 lat2 ka hla1 hla2 hsa,
    toFixed3_eq_of_bucket lon1 lon2 ko hlo1 hlo2 hso]

/-- Witness for the amended C1 at latitudes 0.0004 and 0.0001 (gridpoint
0.000) and longitude 50 (gridpoint 50.000). -/
theorem fingerprint_same_bucket_collides_witness :
    fingerprintQ (4 / 10000) 50 "metric" "en" =
      fingerprintQ (1 / 10000) 50 "metric" "en" :=
  fingerprint_same_bucket_collides (4 / 10000) 50 (1 / 10000) 50 "metric" "en" 0 50000
    (by rw [abs_lt]; constructor <;> norm_num)
    (by rw [abs_lt]; constructor <;> norm_num)
    (by rw [abs_lt]; constructor <;> norm_num)
    (by rw [abs_lt]; constructor <;> norm_num)
    (by norm_num) (by norm_num)

/-- C1 counterexample: the latitudes 0.0004 and 0.0006 differ by 0.0002,
which is less than 0.0005, the longitudes are equal, units and language
are identical, yet the fingerprints differ: `toFixed(3)` rounds the two
latitudes to opposite sides of the 0.0005 boundary ("0.000" vs "0.001"). -/
theorem fingerprint_close_pair_differs :
    |(4 / 10000 : ℚ) - 6 / 10000| < 5 / 10000 ∧ |(50 : ℚ) - 50| < 5 / 10000 ∧
      fingerprintQ (4 / 10000) 50 "metric" "en" ≠
        fingerprintQ (6 / 10000) 50 "metric" "en" := by
  refine ⟨by rw [abs_lt]; constructor <;> norm_num,
    by rw [abs_lt]; constructor <;> norm_num, ?_⟩
  have h4 : Int.floor (1000 * |(4 / 10000 : ℚ)| + 1 / 2) = |(0 : ℤ)| :=
    round3_floor_eq (4 / 10000) 0 (by rw [abs_lt]; constructor <;> norm_num)
  have h6 : Int.floor (1000 * |(6 / 10000 : ℚ)| + 1 / 2) = |(1 : ℤ)| :=
    round3_floor_eq (6 / 10000) 1 (by rw [abs_lt]; constructor <;> norm_num)
  have h50 : Int.floor (1000 * |(50 : ℚ)| + 1 / 2) = |(50000 : ℤ)| :=
    round3_floor_eq 50 50000 (by rw [abs_lt]; constructor <;> norm_num)
  have t4 : toFixed3 (4 / 10000 : ℚ) = "0.000" := by
    simp only [toFixed3]
    rw [h4, if_neg (by norm_num : ¬ (4 / 10000 : ℚ) < 0)]
    decide
  have t6 : toFixed3 (6 / 10000 : ℚ) = "0.001" := by
    simp only [toFixed3]
    rw [h6, if_neg (by norm_num : ¬ (6 / 10000 : ℚ) < 0)]
    decide
  have t50 : toFixed3 (50 : ℚ) = "50.000" := by
    simp only [toFixed3]
    rw [h50, if_neg (by norm_num : ¬ (50 : ℚ) < 0)]
    decide
  simp only [fingerprintQ, t4, t6, t50]
  decide

/-- C5: a weather request with `lat` or `lon` absent answers 400 with the
error JSON body, leaves the cache untouched, and issues no upstream call,
whatever the upstream would have answered. -/
theorem weather_missing_param_400 (q : WeatherQuery) (hasKey : Bool) (now : ℤ)
    (cache : List (String × CacheEntry)) (upstream : UpstreamResp)
    (h : q.lat = none ∨ q.lon = none) :
    handleWeather q hasKey now cache upstream =
      ⟨400, Body.errorBody "lat and lon are required", none, cache, 0⟩ := by
  unfold handleWeather
  rcases h with h | h <;> rw [h] <;> simp [strTruthy]

/-- Witness for C5 at a concrete request missing `lon`. -/
theorem weather_missing_param_400_witness :
    handleWeather ⟨some "10", none, none, none⟩ true 5 [] ⟨200, "D"⟩ =
      ⟨400, Body.errorBody "lat and lon are required", none, [], 0⟩ :=
  weather_missing_param_400 ⟨some "10", none, none, none⟩ true 5 [] ⟨200, "D"⟩
    (Or.inr rfl)

/-- C2: when the cache holds an entry for the request's fingerprint whose
age is below the 60,000 ms TTL, the handler answers the cached payload
with the cache-control hint and performs no upstream call, whatever the
upstream would have answered. -/
theorem weather_fresh_hit (q : WeatherQuery) (now : ℤ)
    (cache : List (String × CacheEntry)) (upstream : UpstreamResp) (e : CacheEntry)
    (hlat : strTruthy (q.lat.getD "") = true) (hlon : strTruthy (q.lon.getD "") = true)
    (hget : mapGet cache (weatherKey q) = some e)
    (hfresh : now - e.ts < WEATHER_TTL_MS) :
    handleWeather q true now cache upstream =
      ⟨200, Body.dataBody e.data, some cacheHint, cache, 0⟩ := by
  unfold handleWeather
  rw [if_neg (by simp [hlat, hlon]), if_neg (by simp)]
  simp only [hget]
  rw [if_pos hfresh]

/-- C4: when the lookup finds no fresh entry and the upstream responds
with a non-success status, the handler forwards that status and the
parsed body verbatim, issues the single upstream call, and leaves the
cache unchanged. -/
theorem weather_upstream_error (q : WeatherQuery) (now : ℤ)
    (cache : List (String × CacheEntry)) (upstream : UpstreamResp)
    (hlat : strTruthy (q.lat.getD "") = true) (hlon : strTruthy (q.lon.getD "") = true)
    (hstale : ∀ e, mapGet cache (weatherKey q) = some e → WEATHER_TTL_MS ≤ now - e.ts)
    (hbad : upstream.ok = false) :
    handleWeather q true now cache upstream =
      ⟨upstream.status, Body.dataBody upstream.data, none, cache, 1⟩ := by
  unfold handleWeather
  rw [if_neg (by simp [hlat, hlon]), if_neg (by simp)]
  cases hg : mapGet cache (weatherKey q) with
  | none => simp only [hg, hbad, Bool.false_eq_true, if_false]
  | some e =>
    simp only [hg]
    rw [if_neg (by have := hstale e hg; omega), if_neg (by simp [hbad])]

/-- The fingerprint key of the concrete request `lat=10, lon=20` with
default units and language, used by concrete cache scenarios. -/
theorem weatherKey_ten_twenty :
    weatherKey ⟨some "10", some "20", none, none⟩ = "10.000,20.000,metric,en" := by
  unfold weatherKey fingerprintQ
  have h10 : Int.floor (1000 * |(10 : ℚ)| + 1 / 2) = |(10000 : ℤ)| :=
    round3_floor_eq 10 10000 (by rw [abs_lt]; constructor <;> norm_num)
  have h20 : Int.floor (1000 * |(20 : ℚ)| + 1 / 2) = |(20000 : ℤ)| :=
    round3_floor_eq 20 20000 (by rw [abs_lt]; constructor <;> norm_num)
  have p10 : parseDecimal "10" = (10 : ℚ) := by
    rw [show parseDecimal "10" =
      ((10 : ℕ) : ℚ) + ((0 : ℕ) : ℚ) / (10 ^ (0 : ℕ)) from rfl]
    norm_num
  have p20 : parseDecimal "20" = (20 : ℚ) := by
    rw [show parseDecimal "20" =
      ((20 : ℕ) : ℚ) + ((0 : ℕ) : ℚ) / (10 ^ (0 : ℕ)) from rfl]
    norm_num
  simp only [Option.getD, p10, p20, toFixed3]
  rw [h10, h20, if_neg (by norm_num : ¬ (10 : ℚ) < 0),
    if_neg (by norm_num : ¬ (20 : ℚ) < 0)]
  decide

/-- Witness for C2: a fresh cached entry answered without a fetch even
though the upstream would have failed. -/
theorem weather_fresh_hit_witness :
    handleWeather ⟨some "10", some "20", none, none⟩ true 50000
      [("10.000,20.000,metric,en", ⟨0, "P"⟩)] ⟨503, "down"⟩ =
      ⟨200, Body.dataBody "P", some cacheHint,
        [("10.000,20.000,metric,en", ⟨0, "P"⟩)], 0⟩ :=
  weather_fresh_hit ⟨some "10", some "20", none, none⟩ 50000
    [("10.000,20.000,metric,en", ⟨0, "P"⟩)] ⟨503, "down"⟩ ⟨0, "P"⟩
    rfl rfl
    (by rw [weatherKey_ten_twenty]; decide)
    (by decide)

/-- Witness for C4: a stale cached entry, upstream answering 429. -/
theorem weather_upstream_error_witness :
    handleWeather ⟨some "10", some "20", none, none⟩ true 70000
      [("10.000,20.000,metric,en", ⟨0, "old"⟩)] ⟨429, "limited"⟩ =
      ⟨429, Body.dataBody "limited", none,
        [("10.000,20.000,metric,en", ⟨0, "old"⟩)], 1⟩ :=
  weather_upstream_error ⟨some "10", some "20", none, none⟩ 70000
    [("10.000,20.000,metric,en", ⟨0, "old"⟩)] ⟨429, "limited"⟩
    rfl rfl
    (by
      intro e he
      rw [weatherKey_ten_twenty] at he
      simp only [mapGet, List.find?] at he
      rw [show (("10.000,20.000,metric,en", (⟨0, "old"⟩ : CacheEntry)).1 ==
        "10.000,20.000,metric,en") = true from by decide] at he
      simp at he
      rw [← he]
      decide)
    rfl

/-- After an in-place replace, the first binding found for the key is the
new value. -/
theorem mapSet_find_replace (m : List (String × CacheEntry)) (k : String)
    (v : CacheEntry) (h : m.any (fun p => p.1 == k) = true) :
    (m.map fun p => if p.1 == k then (k, v) else p).find? (fun p => p.1 == k) =
      some (k, v) := by
  induction m with
  | nil => simp at h
  | cons p m ih =>
    by_cases hp : p.1 = k
    · simp [hp]
    · have h2 : m.any (fun p => p.1 == k) = true := by
        simp only [List.any_cons, Bool.or_eq_true] at h
        rcases h with h | h
        · exact absurd (by simpa using h) hp
        · exact h
      rw [List.map_cons, List.find?_cons]
      have hcond : ((if p.1 == k then (k, v) else p).1 == k) = false := by
        simp [hp]
      rw [hcond]
      exact ih h2

/-- When the key is absent, the appended binding is the one found. -/
theorem mapSet_find_append (m : List (String × CacheEntry)) (k : String)
    (v : CacheEntry) (h : ∀ p ∈ m, ¬ p.1 = k) :
    (m ++ [(k, v)]).find? (fun p => p.1 == k) = some (k, v) := by
  induction m with
  | nil => simp
  | cons p m ih =>
    have hp := h p (List.mem_cons_self p m)
    simp [hp, ih fun q hq => h q (List.mem_cons_of_mem p hq)]

/-- Looking up the key just set yields exactly the entry just stored. -/
theorem mapSet_get (m : List (String × CacheEntry)) (k : String) (v : CacheEntry) :
    mapGet (mapSet m k v) k = some v := by
  unfold mapSet
  by_cases h : m.any (fun p => p.1 == k) = true
  · rw [if_pos h]
    unfold mapGet
    rw [mapSet_find_replace m k v h]
    rfl
  · rw [if_neg h]
    unfold mapGet
    rw [mapSet_find_append m k v]
    · rfl
    · intro p hp hk
      exact h (List.any_eq_true.mpr ⟨p, hp, by simp [hk]⟩)

/-- `Map.set` keeps the keys pairwise distinct: replacing preserves the
key list, appending adds a key that was absent. -/
theorem mapSet_keys_nodup (m : List (String × CacheEntry)) (k : String)
    (v : CacheEntry) (h : (m.map Prod.fst).Nodup) :
    ((mapSet m k v).map Prod.fst).Nodup := by
  unfold mapSet
  by_cases hmem : m.any (fun p => p.1 == k) = true
  · rw [if_pos hmem]
    have hkeys : (m.map fun p => if p.1 == k then (k, v) else p).map Prod.fst =
        m.map Prod.fst := by
      rw [List.map_map]
      apply List.map_congr_left
      intro p _
      by_cases hk : p.1 = k
      · simp [hk]
      · simp [hk]
    rw [hkeys]
    exact h
  · rw [if_neg hmem, List.map_append, List.nodup_append]
    refine ⟨h, by simp, ?_⟩
    intro a ha hb
    simp only [List.map_cons, List.map_nil, List.mem_singleton] at hb
    subst hb
    simp only [List.mem_map] at ha
    obtain ⟨p, hp, hpk⟩ := ha
    exact hmem (List.any_eq_true.mpr ⟨p, hp, by simp [hpk]⟩)

/-- C3: with a stale cached entry (age at least 60,000 ms) for the
request's fingerprint, the handler issues exactly one upstream call, and
on upstream success the entry for that fingerprint is replaced by the new
payload timestamped now, the key mapping to exactly that entry, with at
most one binding per fingerprint preserved. -/
theorem weather_stale_refresh (q : WeatherQuery) (now : ℤ)
    (cache : List (String × CacheEntry)) (upstream : UpstreamResp) (e : CacheEntry)
    (hlat : strTruthy (q.lat.getD "") = true) (hlon : strTruthy (q.lon.getD "") = true)
    (hget : mapGet cache (weatherKey q) = some e)
    (hstale : WEATHER_TTL_MS ≤ now - e.ts)
    (hnodup : (cache.map Prod.fst).Nodup) :
    (handleWeather q true now cache upstream).upstreamCalls = 1 ∧
      (upstream.ok = true →
        (handleWeather q true now cache upstream).cache =
            mapSet cache (weatherKey q) ⟨now, upstream.data⟩ ∧
          mapGet (handleWeather q true now cache upstream).cache (weatherKey q) =
            some ⟨now, upstream.data⟩ ∧
          ((handleWeather q true now cache upstream).cache.map Prod.fst).Nodup) := by
  have hh : handleWeather q true now cache upstream =
      if upstream.ok then
        ⟨200, Body.dataBody upstream.data, some cacheHint,
          mapSet cache (weatherKey q) ⟨now, upstream.data⟩, 1⟩
      else ⟨upstream.status, Body.dataBody upstream.data, none, cache, 1⟩ := by
    unfold handleWeather
    rw [if_neg (by simp [hlat, hlon]), if_neg (by simp)]
    simp only [hget]
    rw [if_neg (by omega)]
  by_cases hok : upstream.ok = true
  · rw [hh, if_pos hok]
    exact ⟨rfl, fun _ => ⟨rfl, mapSet_get cache (weatherKey q) ⟨now, upstream.data⟩,
      mapSet_keys_nodup cache (weatherKey q) ⟨now, upstream.data⟩ hnodup⟩⟩
  · rw [hh, if_neg hok]
    exact ⟨rfl, fun hc => absurd hc hok⟩

/-- Witness for C3: the stale entry from time 0 is refreshed at time
70,000 by a successful upstream answer. -/
theorem weather_stale_refresh_witness :
    (handleWeather ⟨some "10", some "20", none, none⟩ true 70000
        [("10.000,20.000,metric,en", ⟨0, "old"⟩)] ⟨200, "new"⟩).upstreamCalls = 1 ∧
      (UpstreamResp.ok ⟨200, "new"⟩ = true →
        (handleWeather ⟨some "10", some "20", none, none⟩ true 70000
            [("10.000,20.000,metric,en", ⟨0, "old"⟩)] ⟨200, "new"⟩).cache =
            mapSet [("10.000,20.000,metric,en", ⟨0, "old"⟩)]
              (weatherKey ⟨some "10", some "20", none, none⟩) ⟨70000, "new"⟩ ∧
          mapGet (handleWeather ⟨some "10", some "20", none, none⟩ true 70000
              [("10.000,20.000,metric,en", ⟨0, "old"⟩)] ⟨200, "new"⟩).cache
            (weatherKey ⟨some "10", some "20", none, none⟩) = some ⟨70000, "new"⟩ ∧
          ((handleWeather ⟨some "10", some "20", none, none⟩ true 70000
              [("10.000,20.000,metric,en", ⟨0, "old"⟩)] ⟨200, "new"⟩).cache.map
            Prod.fst).Nodup) :=
  weather_stale_refresh ⟨some "10", some "20", none, none⟩ 70000
    [("10.000,20.000,metric,en", ⟨0, "old"⟩)] ⟨200, "new"⟩ ⟨0, "old"⟩
    rfl rfl
    (by rw [weatherKey_ten_twenty]; decide)
    (by decide)
    (by decide)

/-- In a collection with pairwise-distinct ids, the update map rewrites
exactly the member with the requested id, and the lookup on the new
collection finds its merged version (the patch not touching `id`). -/
theorem find_update_of_mem (l : List Todo) (i : String) (p : TodoPatch) (t : Todo)
    (hn : (l.map Todo.id).Nodup) (ht : t ∈ l) (hid : t.id = i) (hp : p.id = none) :
    (l.map fun u => if u.id == i then u.merge p else u).find? (fun u => u.id == i) =
      some (t.merge p) := by
  induction l with
  | nil => simp at ht
  | cons u l ih =>
    simp only [List.map_cons, List.nodup_cons] at hn
    obtain ⟨hu, hn2⟩ := hn
    by_cases hui : u.id = i
    · have htu : t = u := by
        rcases List.mem_cons.mp ht with h | h
        · exact h
        · exact absurd (hui ▸ hid ▸ List.mem_map_of_mem Todo.id h) hu
      subst htu
      have hmid : (t.merge p).id = i := by
        simp [Todo.merge, hp, hid]
      rw [List.map_cons, List.find?_cons]
      simp [hui, hmid]
    · have hti : t ∈ l := by
        rcases List.mem_cons.mp ht with h | h
        · exact absurd (h ▸ hid) hui
        · exact h
      rw [List.map_cons, List.find?_cons]
      have hcond : ((if u.id == i then u.merge p else u).id == i) = false := by
        simp [hui]
      rw [hcond]
      exact ih hn2 hti

/-- C6: in a todo collection with distinct ids, updating a present todo
with the body `{done: true}` answers that todo with `done` flipped to
true and id, title, cropId and when unchanged; updating an id with no
matching todo answers null and leaves the collection unchanged. -/
theorem todo_update_done (todos : List Todo) (i : String) (t : Todo) :
    ((todos.map Todo.id).Nodup → t ∈ todos → t.id = i →
      (updateTodo todos i donePatch).2 =
        some ⟨t.id, t.title, t.cropId, true, t.when⟩) ∧
    (∀ p : TodoPatch, (∀ u ∈ todos, u.id ≠ i) →
      updateTodo todos i p = (todos, none)) := by
  constructor
  · intro hn ht hid
    unfold updateTodo
    simp only
    rw [find_update_of_mem todos i donePatch t hn ht hid rfl]
    rfl
  · intro p hab
    have hmap : todos.map (fun t => if t.id == i then t.merge p else t) = todos := by
      have hpt : ∀ u ∈ todos, (if u.id == i then u.merge p else u) = u := by
        intro u hu
        simp [hab u hu]
      rw [List.map_congr_left hpt]
      simp
    have hfind : todos.find? (fun t => t.id == i) = none := by
      rw [List.find?_eq_none]
      intro u hu
      simp [hab u hu]
    simp only [updateTodo, hmap, hfind]

/-- Witness for C6: flipping `done` on the only todo, and updating a
missing id. -/
theorem todo_update_done_witness :
    (updateTodo [⟨"a", "Water", some "c1", false, some "2024-05-01T08:00"⟩] "a"
        donePatch).2 =
      some ⟨"a", "Water", some "c1", true, some "2024-05-01T08:00"⟩ ∧
    updateTodo [⟨"a", "Water", some "c1", false, some "2024-05-01T08:00"⟩] "b"
        donePatch =
      ([⟨"a", "Water", some "c1", false, some "2024-05-01T08:00"⟩], none) :=
  ⟨(todo_update_done [⟨"a", "Water", some "c1", false, some "2024-05-01T08:00"⟩] "a"
      ⟨"a", "Water", some "c1", false, some "2024-05-01T08:00"⟩).1
      (by decide) (by decide) rfl,
    (todo_update_done [⟨"a", "Water", some "c1", false, some "2024-05-01T08:00"⟩] "b"
      ⟨"a", "Water", some "c1", false, some "2024-05-01T08:00"⟩).2
      donePatch (by decide)⟩

/-- C7: creating a crop from the body `{name: "Wheat"}` answers 201 with
an entity carrying the generated id (non-empty whenever the generator
yields a non-empty id), name "Wheat" and empty variety, and appends that
entity at the end of the collection. -/
theorem crop_create_wheat (crops : List Crop) (newId : String) (h : newId ≠ "") :
    (createCrop crops newId ⟨some "Wheat", none⟩).2.1 = 201 ∧
    (createCrop crops newId ⟨some "Wheat", none⟩).2.2 = ⟨newId, "Wheat", ""⟩ ∧
    (createCrop crops newId ⟨some "Wheat", none⟩).2.2.id ≠ "" ∧
    (createCrop crops newId ⟨some "Wheat", none⟩).1 =
      crops ++ [(createCrop crops newId ⟨some "Wheat", none⟩).2.2] :=
  ⟨rfl, rfl, h, rfl⟩

/-- Witness for C7 on an already populated collection. -/
theorem crop_create_wheat_witness :
    (createCrop [⟨"c0", "Corn", "sweet"⟩] "id1" ⟨some "Wheat", none⟩).2.1 = 201 ∧
    (createCrop [⟨"c0", "Corn", "sweet"⟩] "id1" ⟨some "Wheat", none⟩).2.2 =
      ⟨"id1", "Wheat", ""⟩ ∧
    (createCrop [⟨"c0", "Corn", "sweet"⟩] "id1" ⟨some "Wheat", none⟩).2.2.id ≠ "" ∧
    (createCrop [⟨"c0", "Corn", "sweet"⟩] "id1" ⟨some "Wheat", none⟩).1 =
      [⟨"c0", "Corn", "sweet"⟩] ++
        [(createCrop [⟨"c0", "Corn", "sweet"⟩] "id1" ⟨some "Wheat", none⟩).2.2] :=
  crop_create_wheat [⟨"c0", "Corn", "sweet"⟩] "id1" (by decide)

/-- C8: for the chat input `crop:"Corn", coords:{lat:10,lon:20},
message:"water?"`, the prompt is exactly the fixed preamble, the crop
line and the coords line (the only non-empty context fields), joined by
the separator, followed by the user message: so it contains "Crop: Corn",
then "Coords: 10,20", then the literal message, in that order. -/
theorem chat_prompt_order :
    buildPrompt ⟨"water?", "Corn", some ⟨10, 20⟩, none⟩ =
      "You are a helpful farming assistant." ++ " | " ++ "Crop: Corn" ++ " | " ++
        "Coords: 10,20" ++ "\nUser: " ++ "water?" := by
  decide

/-- C9: the reply extraction equals trying the accessor shapes in order
(string `text` field first, then callable `response.text`) and taking the
first non-empty text, with the literal "No reply." fallback when no shape
yields non-empty text. -/
theorem extract_reply_first_shape (r : GenResult) :
    extractReply r = (firstNonEmptyText [r.text, r.responseText]).getD "No reply." := by
  rcases r with ⟨t, rt⟩
  rcases t with _ | s
  · rcases rt with _ | s2
    · rfl
    · by_cases h2 : s2 = "" <;>
        simp [extractReply, firstNonEmptyText, List.findSome?, h2]
  · rcases rt with _ | s2
    · by_cases h1 : s = "" <;>
        simp [extractReply, firstNonEmptyText, List.findSome?, h1]
    · by_cases h1 : s = "" <;> by_cases h2 : s2 = "" <;>
        simp [extractReply, firstNonEmptyText, List.findSome?, h1, h2]

/-- C10: a chat input whose coords object is present but has `lat` 0 or
`lon` 0 builds the same context lines and prompt as the input with no
coords at all: the "Coords:" line is omitted, because presence is tested
by numeric truthiness. -/
theorem chat_coords_zero_omitted (b : ChatBody) (c : Coords)
    (hb : b.coords = some c) (hz : c.lat = 0 ∨ c.lon = 0) :
    contextLines b = contextLines ⟨b.message, b.crop, none, b.weather⟩ ∧
      buildPrompt b = buildPrompt ⟨b.message, b.crop, none, b.weather⟩ := by
  have hcl : contextLines b = contextLines ⟨b.message, b.crop, none, b.weather⟩ := by
    rcases b with ⟨m, cr, co, w⟩
    simp only at hb
    subst hb
    simp only [contextLines]
    have hfalse : ¬ (c.lat ≠ 0 ∧ c.lon ≠ 0) := by
      rcases hz with h | h
      · exact fun hc => hc.1 h
      · exact fun hc => hc.2 h
    rw [if_neg hfalse]
  exact ⟨hcl, by unfold buildPrompt; rw [hcl]⟩

/-- Witness for C10: coords `{lat: 0, lon: 20}` present, line omitted. -/
theorem chat_coords_zero_omitted_witness :
    contextLines ⟨"w", "Corn", some ⟨0, 20⟩, none⟩ =
        contextLines ⟨"w", "Corn", none, none⟩ ∧
      buildPrompt ⟨"w", "Corn", some ⟨0, 20⟩, none⟩ =
        buildPrompt ⟨"w", "Corn", none, none⟩ :=
  chat_coords_zero_omitted ⟨"w", "Corn", some ⟨0, 20⟩, none⟩ ⟨0, 20⟩ rfl
    (Or.inl rfl)
